import Mathlib

/-!
Verification of the CSV-to-PostgreSQL bulk loader in run.py.

The development shallowly embeds the program in Lean:

* String helpers mirror the pieces of the Python standard library the
  script relies on: Path.stem, Path.glob with the fixed pattern, and
  comma splitting as performed by the COPY protocol on its input lines.
* The database session is a list of named tables; the two SQL statements
  the script issues (CREATE TABLE IF NOT EXISTS and COPY ... WITH CSV
  HEADER) are given their PostgreSQL statement semantics as state
  transformers on that list.
* The psycopg2 sql-composition layer (sql.SQL, sql.Identifier,
  SQL.format, Composed) is embedded separately, because the script
  passes a plain Python str where psycopg2 demands a Composable.
* The orchestration in run() and the per-file try/except/finally of the
  function import_file_to_database are embedded as a trace generator
  over an environment that chooses the outcome of each external call.
-/

namespace RunPy

/-! ## String helpers (pathlib and comma splitting) -/

/-- Split a character list at every occurrence of `sep`; the accumulator
holds the current field reversed.  Mirrors the comma splitting the COPY
protocol applies to each input line, and the slash splitting used to
find the final path component. -/
def splitOnCharAux (sep : Char) : List Char → List Char → List (List Char)
  | [], acc => [acc.reverse]
  | c :: rest, acc =>
      if c == sep then acc.reverse :: splitOnCharAux sep rest []
      else splitOnCharAux sep rest (c :: acc)

/-- Position of the last dot of a name, if any. -/
def lastDotIdx (cs : List Char) : Option Nat :=
  ((cs.enum.filter (fun p => p.2 == '.')).map (fun p => p.1)).getLast?

/-- pathlib PurePath.stem: the final path component without its suffix.
The suffix is the part after the last dot, provided that dot is neither
the first nor the last character of the component. -/
def stem (path : String) : String :=
  let base := (splitOnCharAux '/' path.toList []).getLastD path.toList
  match lastDotIdx base with
  | some i => if 0 < i ∧ i + 1 < base.length then (base.take i).asString else base.asString
  | none => base.asString

/-- fnmatch of a file name against the fixed pattern of list_files:
a star followed by the literal extension, hence an ends-with test. -/
def matchesCsvName (name : String) : Bool :=
  name.toList.reverse.take 4 == ['v', 's', 'c', '.']

/-- One line of COPY CSV input split at the fixed comma delimiter. -/
def splitCsv (s : String) : List String :=
  (splitOnCharAux ',' s.toList []).map List.asString

/-! ## The fixed destination schema (run.py lines 99-119) -/

/-- Column types appearing in the CREATE TABLE statement. -/
inductive ColType where
  | integer
  | numeric
  | jsonb
  | varchar (limit : Nat)
  | text
  | boolean
deriving DecidableEq, Repr

/-- One destination column: name, type, nullability, primary key. -/
structure Column where
  name : String
  ty : ColType
  notNull : Bool
  primaryKey : Bool
deriving DecidableEq, Repr

/-- The hard-coded column list of the CREATE TABLE statement, verbatim;
PRIMARY KEY implies NOT NULL. -/
def tableColumns : List Column := [
  ⟨"osm_id", .integer, true, true⟩,
  ⟨"area", .numeric, true, false⟩,
  ⟨"lon", .numeric, true, false⟩,
  ⟨"lat", .numeric, true, false⟩,
  ⟨"tags", .jsonb, false, false⟩,
  ⟨"osm_type", .varchar 25, true, false⟩,
  ⟨"p_tag_value", .text, false, false⟩,
  ⟨"city", .text, false, false⟩,
  ⟨"postcode", .text, false, false⟩,
  ⟨"address", .text, false, false⟩,
  ⟨"street", .text, false, false⟩,
  ⟨"has_way", .boolean, true, false⟩,
  ⟨"shop_type", .text, false, false⟩,
  ⟨"derived_shared_area", .numeric, false, false⟩,
  ⟨"derived_way_area", .numeric, false, false⟩,
  ⟨"parent_way", .integer, false, false⟩,
  ⟨"shared_divisor", .integer, false, false⟩,
  ⟨"area_sq_foot", .numeric, true, false⟩]

/-! ## Database state and statement semantics -/

/-- A table of the session: its schema and its rows, each row the raw
comma-split fields of one COPY input line. -/
structure TableData where
  schema : List Column
  rows : List (List String)
deriving DecidableEq, Repr

/-- The database visible to the session: named tables in creation order. -/
abbrev Database := List (String × TableData)

/-- Errors a statement can raise at the database. -/
inductive DbError where
  | duplicateTable
  | undefinedTable
  | malformedRow
  | uniqueViolation
deriving DecidableEq, Repr

def tableLookup : Database → String → Option TableData
  | [], _ => none
  | (k, t) :: rest, n => if k = n then some t else tableLookup rest n

def setTable : Database → String → TableData → Database
  | [], _, _ => []
  | (k, t) :: rest, n, t2 => if k = n then (k, t2) :: rest else (k, t) :: setTable rest n t2

/-- Plain CREATE TABLE: errors when the name is taken. -/
def createTable (db : Database) (n : String) (cols : List Column) : Except DbError Database :=
  match tableLookup db n with
  | some _ => .error .duplicateTable
  | none => .ok ((n, ⟨cols, []⟩) :: db)

/-- CREATE TABLE IF NOT EXISTS: skip creation when the name is taken,
leaving the existing table untouched (PostgreSQL raises only a notice). -/
def createTableIfNotExists (db : Database) (n : String) (cols : List Column) :
    Except DbError Database :=
  match tableLookup db n with
  | some _ => .ok db
  | none => createTable db n cols

/-- Digits, at least one. -/
def digitChars (cs : List Char) : Bool := !cs.isEmpty && cs.all Char.isDigit

/-- An integer literal: optional sign, then digits. -/
def isIntLit (cs : List Char) : Bool :=
  match cs with
  | '-' :: rest => digitChars rest
  | '+' :: rest => digitChars rest
  | _ => digitChars cs

/-- A numeric literal: optional sign, digits with at most one dot,
at least one digit overall. -/
def isNumericLit (cs : List Char) : Bool :=
  let body := match cs with
    | '-' :: rest => rest
    | '+' :: rest => rest
    | _ => cs
  match splitOnCharAux '.' body [] with
  | [a] => digitChars a
  | [a, b] => !(a.isEmpty && b.isEmpty) && a.all Char.isDigit && b.all Char.isDigit
  | _ => false

/-- Input accepted by the boolean type. -/
def isBoolLit (cs : List Char) : Bool :=
  (["t", "f", "true", "false", "TRUE", "FALSE", "True", "False",
    "y", "n", "yes", "no", "on", "off", "1", "0"]).contains cs.asString

/-- One COPY CSV field checked against one column.  An empty unquoted
field is NULL, rejected by NOT NULL columns; otherwise the text must fit
the column type (JSON well-formedness is not modelled). -/
def validField (c : Column) (field : String) : Bool :=
  let cs := field.toList
  if cs.isEmpty then !c.notNull
  else match c.ty with
    | .integer => isIntLit cs
    | .numeric => isNumericLit cs
    | .jsonb => true
    | .varchar limit => decide (cs.length ≤ limit)
    | .text => true
    | .boolean => isBoolLit cs

/-- A row is well formed when its arity matches the schema and every
field fits its column. -/
def validRow (schema : List Column) (fields : List String) : Bool :=
  fields.length == schema.length && (schema.zip fields).all (fun p => validField p.1 p.2)

/-- The primary-key field of a row, when the schema declares one. -/
def rowPk (schema : List Column) (fields : List String) : Option String :=
  ((schema.zip fields).find? (fun p => p.1.primaryKey)).map (fun p => p.2)

/-- No two equal entries. -/
def nodupList : List (Option String) → Bool
  | [] => true
  | x :: xs => !(xs.contains x) && nodupList xs

/-- COPY table FROM stdin WITH CSV HEADER, comma delimiter: the first
input line is consumed as the header, every further line is split at
commas and appended as one row; the statement fails on a malformed row
or a primary-key collision and then changes nothing. -/
def copyCsvHeader (db : Database) (table : String) (fileLines : List String) :
    Except DbError Database :=
  match tableLookup db table with
  | none => .error .undefinedTable
  | some t =>
    match fileLines with
    | [] => .ok db
    | _header :: dataLines =>
      if (dataLines.map splitCsv).all (fun r => validRow t.schema r) then
        if nodupList ((t.rows ++ dataLines.map splitCsv).map (rowPk t.schema)) then
          .ok (setTable db table ⟨t.schema, t.rows ++ dataLines.map splitCsv⟩)
        else .error .uniqueViolation
      else .error .malformedRow

/-- import_file_to_database at the statement level: derive the table
name with Path.stem, issue CREATE TABLE IF NOT EXISTS with the fixed
columns, then COPY the file contents; any statement error is caught
inside the function (logged) and reported as a false success flag. -/
def import_file_to_database (db : Database) (filePath : String) (contents : List String) :
    Database × Bool :=
  let file_name := stem filePath
  match createTableIfNotExists db file_name tableColumns with
  | .error _ => (db, false)
  | .ok db1 =>
    match copyCsvHeader db1 file_name contents with
    | .error _ => (db1, false)
    | .ok db2 => (db2, true)

/-- Rows of a table, empty when the table is absent. -/
def rowsAt (db : Database) (n : String) : List (List String) :=
  match tableLookup db n with
  | some t => t.rows
  | none => []

/-- Schema of a table, none when the table is absent. -/
def schemaAt (db : Database) (n : String) : Option (List Column) :=
  (tableLookup db n).map TableData.schema

/-! ## The psycopg2 sql composition layer

run.py builds both statements with sql.SQL(template).format(table_name =
file_name).  In psycopg2, SQL.format splices each argument into the
template and wraps the result in Composed, whose constructor raises
TypeError on any element that is not a Composable; identifier quoting
happens only when the caller wraps the argument in sql.Identifier.
run.py passes the plain Python str file_name. -/

/-- A psycopg2 Composable: a literal SQL fragment, a quoted identifier,
or a composition. -/
inductive Composable where
  | sqlText (s : String)
  | identifier (s : String)
  | composed (items : List Composable)

/-- What a Python caller can pass to SQL.format: a plain str or a
Composable. -/
inductive FormatArg where
  | pyString (s : String)
  | composable (c : Composable)

/-- The TypeError Composed raises on a non-Composable element. -/
inductive SqlFormatError where
  | notComposable (got : String)
deriving DecidableEq, Repr

/-- sql.SQL(before ++ placeholder ++ after).format(arg): splice the
argument between the two literal template halves; a plain str is
rejected by the Composed constructor with TypeError. -/
def sqlFormat (before after : String) (arg : FormatArg) : Except SqlFormatError Composable :=
  match arg with
  | .composable c => .ok (.composed [.sqlText before, c, .sqlText after])
  | .pyString s => .error (.notComposable s)

/-- Template half before the table-name placeholder of the CREATE TABLE
statement (run.py lines 97-121). -/
def createTableSqlBefore : String := "CREATE TABLE IF NOT EXISTS "

/-- Template half after the table-name placeholder of the CREATE TABLE
statement. -/
def createTableSqlAfter : String :=
  " ( osm_id INTEGER PRIMARY KEY, area NUMERIC NOT NULL, lon NUMERIC NOT NULL, lat NUMERIC NOT NULL, tags JSONB, osm_type VARCHAR(25) NOT NULL, p_tag_value TEXT, city TEXT, postcode TEXT, address TEXT, street TEXT, has_way BOOLEAN NOT NULL, shop_type TEXT, derived_shared_area NUMERIC, derived_way_area NUMERIC, parent_way INTEGER, shared_divisor INTEGER, area_sq_foot NUMERIC NOT NULL )"

/-- Template half before the table-name placeholder of the COPY
statement (run.py lines 129-132). -/
def copySqlBefore : String := "COPY "

/-- Template half after the table-name placeholder of the COPY
statement. -/
def copySqlAfter : String := " FROM stdin WITH CSV HEADER DELIMITER as \x27,\x27"

/-- The CREATE TABLE query construction exactly as run.py performs it:
the derived file name is passed as a plain str, not as sql.Identifier. -/
def createTableQuery (file_name : String) : Except SqlFormatError Composable :=
  sqlFormat createTableSqlBefore createTableSqlAfter (.pyString file_name)

/-- The COPY query construction exactly as run.py performs it: again a
plain str, not sql.Identifier. -/
def copyQuery (file_name : String) : Except SqlFormatError Composable :=
  sqlFormat copySqlBefore copySqlAfter (.pyString file_name)

/-! ## The filesystem and list_files

list_files runs Path(search_folder).glob of the fixed pattern.  In
pathlib, the selector first tests is_dir on the parent and yields
nothing when the test fails, and the wildcard scan catches
PermissionError and yields nothing; so a missing, non-directory or
unreadable search folder produces an empty listing, never an exception. -/

/-- The part of the filesystem the scanner can observe: which paths are
directories, their entry names, and which directories refuse scandir. -/
structure FileSystem where
  dirs : List String
  entries : List (String × List String)
  unreadables : List String
deriving DecidableEq, Repr

def isDir (fs : FileSystem) (p : String) : Bool := fs.dirs.contains p

def dirReadable (fs : FileSystem) (p : String) : Bool := !(fs.unreadables.contains p)

def dirEntries (fs : FileSystem) (p : String) : List String :=
  (fs.entries.lookup p).getD []

/-- list_files: glob the fixed pattern under the search folder and
return the matching paths, in directory order. -/
def list_files (fs : FileSystem) (search_folder : String) : List String :=
  if isDir fs search_folder then
    if dirReadable fs search_folder then
      ((dirEntries fs search_folder).filter matchesCsvName).map
        (fun n => search_folder ++ "/" ++ n)
    else []
  else []

/-! ## The orchestrator: run() as a trace generator

run() reads the config, lists the files, and inside try/except/finally
connects, imports each file and closes the connection.  The embedding
records the calls the script makes as a trace of events, with the
outcome of every external call chosen by the environment. -/

/-- The object a psycopg2 method is invoked on. -/
inductive Target where
  | connection
  | cursor
deriving DecidableEq, Repr

/-- One observable call of the script. -/
inductive Event where
  | connect
  | cursorOpen
  | execCreate (table : String)
  | commit (t : Target)
  | copy (table : String)
  | close (t : Target)
  | logInfo
  | logError
deriving DecidableEq, Repr

/-- How far one file gets inside import_file_to_database before an
external call raises, if any does. -/
inductive FileStage where
  | cursorFail
  | formatFail
  | provisionFail
  | commitFail
  | openFail
  | copyFail
  | success
deriving DecidableEq, Repr

/-- What one call of import_file_to_database leaves behind: its events,
whether an exception escaped the function, and whether the file failed. -/
structure FileReport where
  events : List Event
  raised : Bool
  failed : Bool
deriving DecidableEq, Repr

/-- import_file_to_database as a trace (run.py lines 86-141).  The body
logs, opens a cursor, formats and executes CREATE TABLE, calls commit on
the cursor, opens the file, formats and runs COPY; except catches every
exception of the body and logs it; finally closes the cursor — but when
conn.cursor() itself raised, the local cur was never bound and the
finally block raises NameError out of the function. -/
def fileImportTrace (stage : FileStage) (filePath : String) : FileReport :=
  let t := stem filePath
  match stage with
  | .cursorFail => ⟨[.logInfo, .logError], true, true⟩
  | .formatFail => ⟨[.logInfo, .cursorOpen, .logError, .close .cursor], false, true⟩
  | .provisionFail =>
      ⟨[.logInfo, .cursorOpen, .execCreate t, .logError, .close .cursor], false, true⟩
  | .commitFail =>
      ⟨[.logInfo, .cursorOpen, .execCreate t, .commit .cursor, .logError, .close .cursor],
        false, true⟩
  | .openFail =>
      ⟨[.logInfo, .cursorOpen, .execCreate t, .commit .cursor, .logError, .close .cursor],
        false, true⟩
  | .copyFail =>
      ⟨[.logInfo, .cursorOpen, .execCreate t, .commit .cursor, .copy t, .logError,
        .close .cursor], false, true⟩
  | .success =>
      ⟨[.logInfo, .cursorOpen, .execCreate t, .commit .cursor, .copy t, .close .cursor],
        false, false⟩

/-- The parsed config: the recognized keys. -/
structure ConfigData where
  target_path : String
  db : List (String × String)
deriving DecidableEq, Repr

/-- The state of the config file as the reader finds it. -/
inductive ConfigSource where
  | unreadable
  | unparseable
  | parsed (c : ConfigData)
deriving DecidableEq, Repr

/-- read_yaml_config (run.py lines 67-75): open and safe_load inside
try; on any exception log the failure and fall through, returning None. -/
def read_yaml_config (src : ConfigSource) : Option ConfigData :=
  match src with
  | .parsed c => some c
  | .unreadable => none
  | .unparseable => none

/-- Everything external the run observes: the config file, the
filesystem, whether psycopg2.connect succeeds, and how far each file
gets. -/
structure RunEnv where
  configSrc : ConfigSource
  fs : FileSystem
  connectOk : Bool
  stageOf : String → FileStage

/-- What the for-loop over the files leaves behind. -/
structure LoopResult where
  events : List Event
  processed : List String
  failedFiles : List String
  aborted : Bool

/-- The for-loop of run(): call import_file_to_database on each file in
order; when a call lets an exception escape, the loop aborts and the
remaining files are never reached. -/
def processLoop (stageOf : String → FileStage) : List String → LoopResult
  | [] => ⟨[], [], [], false⟩
  | f :: rest =>
    let r := fileImportTrace (stageOf f) f
    if r.raised then ⟨r.events, [f], [f], true⟩
    else
      let tail := processLoop stageOf rest
      ⟨r.events ++ tail.events, f :: tail.processed,
        (if r.failed then [f] else []) ++ tail.failedFiles, tail.aborted⟩

/-- What a whole run leaves behind.  crashed means an exception escaped
run() itself (the process dies with a traceback). -/
structure RunOutcome where
  events : List Event
  processed : List String
  failedFiles : List String
  crashed : Bool

/-- run() (run.py lines 37-65).  config = read_yaml_config(...); when it
returned None, the subscript config of target_path raises TypeError
outside any try block and the run dies having touched nothing.  Then
list_files, then try: connect — a failure there is logged by the except
and the finally skips the close since db_conn is still None — else the
loop; an abort of the loop is logged by the except, completion logs the
final info line; the finally closes the connection in every case. -/
def run (env : RunEnv) : RunOutcome :=
  match read_yaml_config env.configSrc with
  | none => ⟨[.logError], [], [], true⟩
  | some cfg =>
    let files := list_files env.fs cfg.target_path
    if env.connectOk then
      let r := processLoop env.stageOf files
      ⟨Event.connect :: (r.events ++
          ((if r.aborted then [Event.logError] else [Event.logInfo]) ++
            [Event.close Target.connection])),
        r.processed, r.failedFiles, false⟩
    else ⟨[Event.logError], [], [], false⟩

/-- True when every commit event of the trace is invoked on a cursor. -/
def commitsOnlyOnCursor : List Event → Bool
  | [] => true
  | Event.commit t :: rest => t == Target.cursor && commitsOnlyOnCursor rest
  | _ :: rest => commitsOnlyOnCursor rest

/-! ## Helper lemmas -/

theorem lookup_setTable (db : Database) (n : String) (t2 : TableData) (m : String) :
    tableLookup (setTable db n t2) m =
      if m = n then (tableLookup db n).map (fun _ => t2) else tableLookup db m := by
  induction db with
  | nil =>
      simp only [setTable, tableLookup, Option.map_none']
      split <;> rfl
  | cons head rest ih =>
      obtain ⟨k, t⟩ := head
      by_cases hk : k = n
      · subst hk
        by_cases hm : k = m
        · subst hm
          simp [setTable, tableLookup]
        · have hm2 : ¬ m = k := fun h => hm h.symm
          simp [setTable, tableLookup, hm, hm2]
      · by_cases hm : k = m
        · subst hm
          have hm2 : ¬ k = n := hk
          simp [setTable, tableLookup, hk, fun h : k = n => hk h]
        · simp [setTable, tableLookup, hk, hm, ih]

theorem ctine_exists (db : Database) (n : String) (cols : List Column) (t : TableData)
    (hl : tableLookup db n = some t) :
    createTableIfNotExists db n cols = .ok db := by
  unfold createTableIfNotExists
  rw [hl]

theorem ctine_absent (db : Database) (n : String) (cols : List Column)
    (hl : tableLookup db n = none) :
    createTableIfNotExists db n cols = .ok ((n, ⟨cols, []⟩) :: db) := by
  unfold createTableIfNotExists createTable
  rw [hl]

theorem copy_ok_rows (db : Database) (n header : String) (ds : List String) (db2 : Database)
    (h : copyCsvHeader db n (header :: ds) = .ok db2) :
    rowsAt db2 n = rowsAt db n ++ ds.map splitCsv := by
  unfold copyCsvHeader at h
  cases hl : tableLookup db n with
  | none => rw [hl] at h; cases h
  | some t =>
      rw [hl] at h
      dsimp only at h
      split at h
      · split at h
        · injection h with h
          subst h
          unfold rowsAt
          rw [lookup_setTable]
          simp [hl]
        · cases h
      · cases h

theorem copy_schemaAt (db : Database) (n : String) (lines : List String) (db2 : Database)
    (h : copyCsvHeader db n lines = .ok db2) (m : String) :
    schemaAt db2 m = schemaAt db m := by
  unfold copyCsvHeader at h
  cases hl : tableLookup db n with
  | none => rw [hl] at h; cases h
  | some t =>
      rw [hl] at h
      cases lines with
      | nil =>
          dsimp only at h
          injection h with h
          subst h
          rfl
      | cons hd tl =>
          dsimp only at h
          split at h
          · split at h
            · injection h with h
              subst h
              unfold schemaAt
              rw [lookup_setTable]
              by_cases hm : m = n
              · subst hm; simp [hl]
              · simp [hm]
            · cases h
          · cases h

theorem import_schemaAt (db : Database) (path : String) (contents : List String) (m : String) :
    schemaAt (import_file_to_database db path contents).1 m =
      if m = stem path then some ((schemaAt db m).getD tableColumns)
      else schemaAt db m := by
  unfold import_file_to_database
  dsimp only
  cases hl : tableLookup db (stem path) with
  | some t =>
      rw [ctine_exists db (stem path) tableColumns t hl]
      dsimp only
      have hbase : ∀ m2, schemaAt db m2 =
          if m2 = stem path then some ((schemaAt db m2).getD tableColumns)
          else schemaAt db m2 := by
        intro m2
        by_cases hm : m2 = stem path
        · subst hm
          simp [schemaAt, hl]
        · simp [hm]
      cases hc : copyCsvHeader db (stem path) contents with
      | ok db2 =>
          dsimp only
          rw [copy_schemaAt db (stem path) contents db2 hc m]
          exact hbase m
      | error e =>
          dsimp only
          exact hbase m
  | none =>
      rw [ctine_absent db (stem path) tableColumns hl]
      dsimp only
      have hbase : schemaAt ((stem path, ⟨tableColumns, []⟩) :: db) m =
          if m = stem path then some ((schemaAt db m).getD tableColumns)
          else schemaAt db m := by
        by_cases hm : m = stem path
        · subst hm
          simp [schemaAt, tableLookup, hl]
        · have hm2 : ¬ stem path = m := fun h => hm h.symm
          simp [schemaAt, tableLookup, hm, hm2]
      cases hc : copyCsvHeader ((stem path, ⟨tableColumns, []⟩) :: db) (stem path) contents with
      | ok db2 =>
          dsimp only
          rw [copy_schemaAt _ (stem path) contents db2 hc m]
          exact hbase
      | error e =>
          dsimp only
          exact hbase

theorem commitsOnlyOnCursor_append (a b : List Event) :
    commitsOnlyOnCursor (a ++ b) = (commitsOnlyOnCursor a && commitsOnlyOnCursor b) := by
  induction a with
  | nil => simp [commitsOnlyOnCursor]
  | cons e rest ih =>
      cases e <;> simp [commitsOnlyOnCursor, ih, Bool.and_assoc]

theorem commitsOnlyOnCursor_fileImportTrace (s : FileStage) (f : String) :
    commitsOnlyOnCursor (fileImportTrace s f).events = true := by
  cases s <;> rfl

theorem raised_fileImportTrace (s : FileStage) (f : String) (h : s ≠ FileStage.cursorFail) :
    (fileImportTrace s f).raised = false := by
  cases s <;> first | rfl | exact absurd rfl h

theorem failed_fileImportTrace (s : FileStage) (f : String) :
    (fileImportTrace s f).failed = (s != FileStage.success) := by
  cases s <;> rfl

theorem logError_mem_fileImportTrace (s : FileStage) (f : String)
    (h : s ≠ FileStage.success) :
    Event.logError ∈ (fileImportTrace s f).events := by
  cases s
  case success => exact absurd rfl h
  all_goals simp [fileImportTrace]

theorem processLoop_no_raise (stageOf : String → FileStage) (files : List String)
    (h : ∀ f, stageOf f ≠ FileStage.cursorFail) :
    (processLoop stageOf files).processed = files ∧
    (processLoop stageOf files).aborted = false ∧
    (processLoop stageOf files).failedFiles
      = files.filter (fun f => stageOf f != FileStage.success) := by
  induction files with
  | nil => exact ⟨rfl, rfl, rfl⟩
  | cons f rest ih =>
      obtain ⟨ih1, ih2, ih3⟩ := ih
      have hr : (fileImportTrace (stageOf f) f).raised = false :=
        raised_fileImportTrace _ _ (h f)
      refine ⟨?_, ?_, ?_⟩
      · simp [processLoop, hr, ih1]
      · simp [processLoop, hr, ih2]
      · simp only [processLoop, hr, Bool.false_eq_true, if_false, List.filter_cons,
          failed_fileImportTrace, ih3]
        split <;> simp

theorem commitsOnlyOnCursor_processLoop (stageOf : String → FileStage)
    (files : List String) :
    commitsOnlyOnCursor (processLoop stageOf files).events = true := by
  induction files with
  | nil => rfl
  | cons f rest ih =>
      by_cases hr : (fileImportTrace (stageOf f) f).raised
      · simp [processLoop, hr, commitsOnlyOnCursor_fileImportTrace]
      · simp [processLoop, hr, commitsOnlyOnCursor_append, ih,
          commitsOnlyOnCursor_fileImportTrace]

/-! ## Concrete scenarios used by the witnesses and the counterexample -/

/-- A directory with two candidate files. -/
def fsTwo : FileSystem := ⟨["/data"], [("/data", ["roads.csv", "shops.csv"])], []⟩

/-- The first file fails during its COPY, the second succeeds. -/
def stageTwo (f : String) : FileStage :=
  if f == "/data/roads.csv" then .copyFail else .success

def cfgTwo : ConfigData := ⟨"/data", [("host", "localhost")]⟩

def envTwo : RunEnv := ⟨.parsed cfgTwo, fsTwo, true, stageTwo⟩

/-- A filesystem in which the configured target directory does not exist. -/
def fsNoData : FileSystem := ⟨["/tmp"], [("/tmp", [])], []⟩

def envNoData : RunEnv := ⟨.parsed cfgTwo, fsNoData, true, fun _ => .success⟩

/-- A run whose connection attempt fails. -/
def envNoConn : RunEnv := ⟨.parsed cfgTwo, fsTwo, false, fun _ => .success⟩

/-- A run whose config file cannot be read. -/
def envBadConfig : RunEnv := ⟨.unreadable, fsTwo, true, fun _ => .success⟩

/-- The header line of a well-formed input file. -/
def headerRow : String :=
  "osm_id,area,lon,lat,tags,osm_type,p_tag_value,city,postcode,address,street,has_way,shop_type,derived_shared_area,derived_way_area,parent_way,shared_divisor,area_sq_foot"

def rowOne : String := "1,1.5,0.1,0.2,,node,,,,,,t,,,,,,16.1"

def rowTwo : String := "2,2.5,0.3,0.4,,way,,,,,,f,,,,,,27.9"

/-! ## The claims -/

/-- C1: per-file failure isolation.  Whenever the connection is up and no
file fails at cursor acquisition (failures happen in the provisioning or
streaming step, where the per-file except block catches them), the run
processes every discovered file in order, never crashes, marks exactly
the failing files failed, and logs an error for each failing file. -/
theorem per_file_isolation (env : RunEnv) (cfg : ConfigData)
    (h1 : read_yaml_config env.configSrc = some cfg)
    (h2 : env.connectOk = true)
    (h3 : ∀ f, env.stageOf f ≠ FileStage.cursorFail) :
    (run env).processed = list_files env.fs cfg.target_path ∧
    (run env).crashed = false ∧
    (run env).failedFiles
      = (list_files env.fs cfg.target_path).filter
          (fun f => env.stageOf f != FileStage.success) ∧
    (∀ f, env.stageOf f ≠ FileStage.success →
      Event.logError ∈ (fileImportTrace (env.stageOf f) f).events) := by
  obtain ⟨hp, ha, hf⟩ :=
    processLoop_no_raise env.stageOf (list_files env.fs cfg.target_path) h3
  refine ⟨?_, ?_, ?_, fun f hfail => logError_mem_fileImportTrace _ _ hfail⟩ <;>
    simp [run, h1, h2, hp, ha, hf]

/-- C1 witness: two discovered files, the first failing mid-COPY; both
are processed, only the first is marked failed, the run completes. -/
theorem per_file_isolation_witness :
    (run envTwo).processed = list_files envTwo.fs cfgTwo.target_path ∧
    (run envTwo).crashed = false ∧
    (run envTwo).failedFiles
      = (list_files envTwo.fs cfgTwo.target_path).filter
          (fun f => envTwo.stageOf f != FileStage.success) ∧
    (∀ f, envTwo.stageOf f ≠ FileStage.success →
      Event.logError ∈ (fileImportTrace (envTwo.stageOf f) f).events) :=
  per_file_isolation envTwo cfgTwo rfl rfl (fun f => by
    show stageTwo f ≠ FileStage.cursorFail
    unfold stageTwo
    split <;> decide)

/-- C2: bulk streaming row count.  When an import of a file with one
header line and R data rows succeeds, the destination table gains
exactly the R comma-split data rows; the header line is consumed by the
CSV HEADER option and never stored. -/
theorem copy_row_count (db : Database) (path headerLine : String) (dataRows : List String)
    (h : (import_file_to_database db path (headerLine :: dataRows)).2 = true) :
    rowsAt (import_file_to_database db path (headerLine :: dataRows)).1 (stem path)
      = rowsAt db (stem path) ++ dataRows.map splitCsv ∧
    (rowsAt (import_file_to_database db path (headerLine :: dataRows)).1 (stem path)).length
      = (rowsAt db (stem path)).length + dataRows.length := by
  unfold import_file_to_database at h ⊢
  dsimp only at h ⊢
  cases hl : tableLookup db (stem path) with
  | some t =>
      rw [ctine_exists db (stem path) tableColumns t hl] at h ⊢
      dsimp only at h ⊢
      cases hc : copyCsvHeader db (stem path) (headerLine :: dataRows) with
      | error e => rw [hc] at h; simp at h
      | ok db2 =>
          dsimp only
          have hrows := copy_ok_rows db (stem path) headerLine dataRows db2 hc
          rw [hrows]
          simp
  | none =>
      rw [ctine_absent db (stem path) tableColumns hl] at h ⊢
      dsimp only at h ⊢
      cases hc : copyCsvHeader ((stem path, ⟨tableColumns, []⟩) :: db) (stem path)
          (headerLine :: dataRows) with
      | error e => rw [hc] at h; simp at h
      | ok db2 =>
          dsimp only
          have hrows := copy_ok_rows _ (stem path) headerLine dataRows db2 hc
          rw [hrows]
          have hempty : rowsAt ((stem path, ⟨tableColumns, []⟩) :: db) (stem path) = [] := by
            simp [rowsAt, tableLookup]
          have hnone : rowsAt db (stem path) = [] := by
            simp [rowsAt, hl]
          rw [hempty, hnone]
          simp

/-- C2 witness: importing a fresh file with a header and two valid data
rows appends exactly those two rows. -/
theorem copy_row_count_witness :
    rowsAt (import_file_to_database [] "/data/shops.csv" (headerRow :: [rowOne, rowTwo])).1
        (stem "/data/shops.csv")
      = rowsAt [] (stem "/data/shops.csv") ++ [rowOne, rowTwo].map splitCsv ∧
    (rowsAt (import_file_to_database [] "/data/shops.csv" (headerRow :: [rowOne, rowTwo])).1
        (stem "/data/shops.csv")).length
      = (rowsAt [] (stem "/data/shops.csv")).length + [rowOne, rowTwo].length :=
  copy_row_count [] "/data/shops.csv" headerRow [rowOne, rowTwo] (by decide)

/-- C3 (code bug): the table name is never substituted as a protocol
quoted identifier.  run.py passes the plain str file_name to
sql.SQL(...).format, so for every file name both query constructions end
in the TypeError the Composed constructor raises on a non-Composable
element, and no sql.Identifier quoting ever takes place; the third
conjunct shows what the quoting mechanism yields when it is used. -/
theorem table_name_not_quoted (file_name : String) :
    createTableQuery file_name
      = .error (.notComposable file_name) ∧
    copyQuery file_name
      = .error (.notComposable file_name) ∧
    sqlFormat createTableSqlBefore createTableSqlAfter
        (.composable (.identifier file_name))
      = .ok (.composed [.sqlText createTableSqlBefore, .identifier file_name,
          .sqlText createTableSqlAfter]) :=
  ⟨rfl, rfl, rfl⟩

/-- C4: Schema Provisioner idempotence.  When CREATE TABLE IF NOT EXISTS
has produced a database state, issuing it again for the same table name
returns no error and the very same state: schema and rows untouched. -/
theorem provision_idempotent (db : Database) (n : String) (cols : List Column)
    (db1 : Database)
    (h : createTableIfNotExists db n cols = .ok db1) :
    createTableIfNotExists db1 n cols = .ok db1 := by
  cases hl : tableLookup db n with
  | some t =>
      rw [ctine_exists db n cols t hl] at h
      injection h with h
      subst h
      exact ctine_exists db n cols t hl
  | none =>
      rw [ctine_absent db n cols hl] at h
      injection h with h
      subst h
      exact ctine_exists _ n cols ⟨cols, []⟩ (by simp [tableLookup])

/-- C4 witness: provisioning the shops table twice from an empty
database; the second call is a no-op returning the unchanged state. -/
theorem provision_idempotent_witness :
    createTableIfNotExists [("shops", ⟨tableColumns, []⟩)] "shops" tableColumns
      = .ok [("shops", ⟨tableColumns, []⟩)] :=
  provision_idempotent [] "shops" tableColumns [("shops", ⟨tableColumns, []⟩)] rfl

/-- C5: fixed-schema invariant.  The hard-coded column list has exactly
the 18 documented columns with their names, nullability and types; any
run of the importer leaves every existing schema unchanged or creates
its target table with exactly that list; and the schema outcome is
independent of the file contents, hence never derived from the header. -/
theorem fixed_schema_invariant (db : Database) (path : String) (contents : List String)
    (m : String) :
    tableColumns.length = 18 ∧
    tableColumns.map Column.name = ["osm_id", "area", "lon", "lat", "tags", "osm_type",
      "p_tag_value", "city", "postcode", "address", "street", "has_way", "shop_type",
      "derived_shared_area", "derived_way_area", "parent_way", "shared_divisor",
      "area_sq_foot"] ∧
    tableColumns.map Column.notNull = [true, true, true, true, false, true, false, false,
      false, false, false, true, false, false, false, false, false, true] ∧
    tableColumns.map Column.ty = [.integer, .numeric, .numeric, .numeric, .jsonb,
      .varchar 25, .text, .text, .text, .text, .text, .boolean, .text, .numeric,
      .numeric, .integer, .integer, .numeric] ∧
    (schemaAt (import_file_to_database db path contents).1 m = schemaAt db m ∨
      (schemaAt db m = none ∧ m = stem path ∧
        schemaAt (import_file_to_database db path contents).1 m = some tableColumns)) ∧
    (∀ contents2 : List String,
      schemaAt (import_file_to_database db path contents).1 m
        = schemaAt (import_file_to_database db path contents2).1 m) := by
  refine ⟨by decide, by decide, by decide, by decide, ?_, ?_⟩
  · rw [import_schemaAt]
    by_cases hm : m = stem path
    · cases hs : schemaAt db m with
      | some s => left; simp [hm, hs]
      | none => right; exact ⟨rfl, hm, by simp [hm]⟩
    · left; simp [hm]
  · intro c2
    rw [import_schemaAt, import_schemaAt]

/-- C6 counterexample: the configured directory /data does not exist,
yet list_files returns the empty list with no error of any kind and the
run completes normally, logging the final info line — nothing fatal
happens, contradicting the claimed DiscoveryError contract. -/
theorem scanner_no_error_counterexample :
    isDir fsNoData "/data" = false ∧
    list_files fsNoData "/data" = [] ∧
    (run envNoData).crashed = false ∧
    (run envNoData).processed = [] ∧
    Event.logInfo ∈ (run envNoData).events := by decide

/-- C6 (amended): the scanner returns an empty sequence when the
directory exists but holds no matching file, and equally returns an
empty sequence — not an error, and not fatal to the run — when the path
does not exist or is not a readable directory; the run then completes
normally having processed nothing. -/
theorem scanner_missing_dir_empty (env : RunEnv) (cfg : ConfigData)
    (h1 : read_yaml_config env.configSrc = some cfg)
    (h2 : isDir env.fs cfg.target_path = false ∨
          dirReadable env.fs cfg.target_path = false ∨
          (dirEntries env.fs cfg.target_path).filter matchesCsvName = [])
    (h3 : env.connectOk = true) :
    list_files env.fs cfg.target_path = [] ∧
    (run env).processed = [] ∧
    (run env).failedFiles = [] ∧
    (run env).crashed = false ∧
    Event.logInfo ∈ (run env).events := by
  have hf : list_files env.fs cfg.target_path = [] := by
    rcases h2 with h | h | h
    · simp [list_files, h]
    · simp [list_files, h]
    · simp [list_files, h]
  refine ⟨hf, ?_, ?_, ?_, ?_⟩ <;> simp [run, h1, h3, hf, processLoop]

/-- C6 witness: the missing-directory scenario at a concrete input. -/
theorem scanner_missing_dir_empty_witness :
    list_files envNoData.fs cfgTwo.target_path = [] ∧
    (run envNoData).processed = [] ∧
    (run envNoData).failedFiles = [] ∧
    (run envNoData).crashed = false ∧
    Event.logInfo ∈ (run envNoData).events :=
  scanner_missing_dir_empty envNoData cfgTwo rfl (Or.inl (by decide)) rfl

/-- C7: fatal connection failure.  When psycopg2.connect raises, the
except block logs the failure, the run terminates without crashing the
process, no file is processed and no provisioning or streaming call is
ever made. -/
theorem connect_failure_fatal (env : RunEnv) (cfg : ConfigData)
    (h1 : read_yaml_config env.configSrc = some cfg)
    (h2 : env.connectOk = false) :
    (run env).processed = [] ∧
    (run env).events = [Event.logError] ∧
    (run env).crashed = false ∧
    (∀ n, Event.execCreate n ∉ (run env).events) ∧
    (∀ n, Event.copy n ∉ (run env).events) := by
  have he : (run env).events = [Event.logError] := by simp [run, h1, h2]
  refine ⟨by simp [run, h1, h2], he, by simp [run, h1, h2], ?_, ?_⟩ <;>
    (intro n; rw [he]; simp)

/-- C7 witness: a concrete run whose connection attempt fails. -/
theorem connect_failure_fatal_witness :
    (run envNoConn).processed = [] ∧
    (run envNoConn).events = [Event.logError] ∧
    (run envNoConn).crashed = false ∧
    (∀ n, Event.execCreate n ∉ (run envNoConn).events) ∧
    (∀ n, Event.copy n ∉ (run envNoConn).events) :=
  connect_failure_fatal envNoConn cfgTwo rfl rfl

/-- C8: unconditional connection release.  Whenever the connection was
acquired, the finally block closes it on every exit path — for any mix
of per-file outcomes, including a loop abort. -/
theorem connection_always_released (env : RunEnv) (cfg : ConfigData)
    (h1 : read_yaml_config env.configSrc = some cfg)
    (h2 : env.connectOk = true) :
    Event.close Target.connection ∈ (run env).events := by
  simp [run, h1, h2]

/-- C8 witness: the connection close event of a concrete mixed run. -/
theorem connection_always_released_witness :
    Event.close Target.connection ∈ (run envTwo).events :=
  connection_always_released envTwo cfgTwo rfl rfl

/-- C9: fatal config failure.  When the config file is unreadable or
unparseable, read_yaml_config logs and returns None, the subscript of
None raises an uncaught TypeError, and the run dies having processed no
file and never having opened a database connection. -/
theorem config_failure_aborts (env : RunEnv)
    (h : read_yaml_config env.configSrc = none) :
    (run env).processed = [] ∧
    (run env).crashed = true ∧
    (run env).events = [Event.logError] ∧
    Event.connect ∉ (run env).events := by
  have he : run env = ⟨[Event.logError], [], [], true⟩ := by simp [run, h]
  rw [he]
  exact ⟨rfl, rfl, rfl, by decide⟩

/-- C9 witness: a concrete run with an unreadable config file. -/
theorem config_failure_aborts_witness :
    (run envBadConfig).processed = [] ∧
    (run envBadConfig).crashed = true ∧
    (run envBadConfig).events = [Event.logError] ∧
    Event.connect ∉ (run envBadConfig).events :=
  config_failure_aborts envBadConfig rfl

/-- C10: no-commit invariant.  On every execution path of the program,
every commit event of the trace is invoked on a cursor object — the
connection object never receives a commit, so no transaction of the
session is ever explicitly committed before the connection closes. -/
theorem no_connection_commit (env : RunEnv) :
    commitsOnlyOnCursor (run env).events = true := by
  cases h : read_yaml_config env.configSrc with
  | none => simp [run, h, commitsOnlyOnCursor]
  | some cfg =>
      by_cases hc : env.connectOk
      · simp only [run, h, hc, if_true]
        simp only [commitsOnlyOnCursor, commitsOnlyOnCursor_append,
          commitsOnlyOnCursor_processLoop, Bool.true_and]
        split <;> rfl
      · simp [run, h, hc, commitsOnlyOnCursor]

end RunPy
